import Mathlib

/-!
Shallow embedding of the ViewPersonal behavior rules engine
(services/ai/app/behavior.py), the subject motion tracking slice of the
video ingestor (services/ai/app/ingest.py), and the zone compliance engine
(services/api/app/services/compliance_engine.py).

Python floats and timestamps are modelled as rationals (exact arithmetic);
`Optional[float]` becomes `Option ℚ`.  Python's truthiness-based `x or y`
on an optional float treats both `None` and `0.0` as absent, which is
modelled faithfully by `pyOr`.
-/

namespace ViewPersonal

/-! ## behavior.py -/

/-- `BehaviorConfig` (behavior.py, defaults 30/60/120 seconds). -/
structure BehaviorConfig where
  active_confirm_seconds : ℚ
  idle_seconds : ℚ
  away_seconds : ℚ
deriving Repr, DecidableEq

/-- `BehaviorSignals` (behavior.py). -/
structure BehaviorSignals where
  face_present : Bool
  motion_value : ℚ
  motion_threshold : ℚ
deriving Repr, DecidableEq

/-- `BehaviorState` (behavior.py); all fields default to `None`. -/
structure BehaviorState where
  last_state : Option String := none
  face_present_since : Option ℚ := none
  no_face_since : Option ℚ := none
  motion_active_since : Option ℚ := none
  no_motion_since : Option ℚ := none
deriving Repr, DecidableEq

/-- Python `x or y` on an `Optional[float]`: `None` and `0.0` are falsy. -/
def pyOr (x : Option ℚ) (y : ℚ) : ℚ :=
  match x with
  | none => y
  | some t => if t = 0 then y else t

/-- `_since(now_ts, since_ts)` (behavior.py lines 29-32). -/
def sinceElapsed (now : ℚ) (since_ts : Option ℚ) : ℚ :=
  match since_ts with
  | none => 0
  | some t => max 0 (now - t)

/-- The "since"-tracker update block of `update_behavior_state`
(behavior.py lines 51-67). -/
def updateTrackers (st : BehaviorState) (sig : BehaviorSignals) (now : ℚ) :
    BehaviorState :=
  if sig.face_present then
    if sig.motion_threshold ≤ sig.motion_value then
      { st with
        no_face_since := none
        face_present_since := some (pyOr st.face_present_since now)
        no_motion_since := none
        motion_active_since := some (pyOr st.motion_active_since now) }
    else
      { st with
        no_face_since := none
        face_present_since := some (pyOr st.face_present_since now)
        motion_active_since := none
        no_motion_since := some (pyOr st.no_motion_since now) }
  else
    { st with
      face_present_since := none
      no_face_since := some (pyOr st.no_face_since now)
      motion_active_since := none
      no_motion_since := none }

/-- The decision chain of `update_behavior_state` (behavior.py lines 69-103),
run on the already-updated tracker state.  Returns the final state together
with the returned status string. -/
def decideState (cfg : BehaviorConfig) (st : BehaviorState)
    (sig : BehaviorSignals) (now : ℚ) : BehaviorState × String :=
  let no_face_s := sinceElapsed now st.no_face_since
  let no_motion_s := sinceElapsed now st.no_motion_since
  let motion_active_s := sinceElapsed now st.motion_active_since
  if cfg.away_seconds ≤ no_face_s then
    ({ st with last_state := some "away" }, "away")
  else if sig.face_present ∧ cfg.idle_seconds ≤ no_motion_s then
    ({ st with last_state := some "idle" }, "idle")
  else if sig.face_present ∧ cfg.active_confirm_seconds ≤ motion_active_s then
    ({ st with last_state := some "active" }, "active")
  else if st.last_state = some "active" ∧ sig.face_present then
    (st, "active")
  else if st.last_state = some "idle" ∧ sig.face_present then
    (st, "idle")
  else if st.last_state = some "away" ∧ sig.face_present then
    if sig.motion_threshold ≤ sig.motion_value then
      ({ st with last_state := some "active" }, "active")
    else
      ({ st with last_state := some "idle" }, "idle")
  else if sig.face_present then
    if sig.motion_threshold ≤ sig.motion_value then
      ({ st with last_state := some "active" }, "active")
    else
      ({ st with last_state := some "idle" }, "idle")
  else
    ({ st with last_state := some "away" }, "away")

/-- `update_behavior_state` (behavior.py lines 35-103).  The Python function
mutates `st` and returns the status string; here it returns the new state
paired with that string. -/
def update_behavior_state (cfg : BehaviorConfig) (st : BehaviorState)
    (sig : BehaviorSignals) (now : ℚ) : BehaviorState × String :=
  decideState cfg (updateTrackers st sig now) sig now

/-! ## ingest.py — subject motion tracking slice -/

/-- The motion-relevant slice of `SubjectState` (ingest.py lines 25-34):
`last_center` and `motion_ema`.  Centers are modelled over the reals
because the motion sample is a Euclidean distance. -/
structure SubjectMotion where
  last_center : Option (ℝ × ℝ)
  motion_ema : ℝ
deriving Inhabited

/-- A freshly created `SubjectState()` (ingest.py lines 356-358):
`last_center=None`, `motion_ema=0.0`. -/
noncomputable def initSubjectMotion : SubjectMotion :=
  { last_center := none, motion_ema := 0 }

/-- The Euclidean distance `((cx-px)**2 + (cy-py)**2) ** 0.5`
(ingest.py line 365). -/
noncomputable def euclidDist (prev center : ℝ × ℝ) : ℝ :=
  Real.sqrt ((center.1 - prev.1) ^ 2 + (center.2 - prev.2) ^ 2)

/-- The motion-estimation step of the ingest loop (ingest.py lines 362-367):
if a previous center exists, fold the center-delta distance into the EMA as
`0.7 * ema + 0.3 * motion`; in either case record the new center. -/
noncomputable def observeCenter (st : SubjectMotion) (center : ℝ × ℝ) :
    SubjectMotion :=
  match st.last_center with
  | none => { st with last_center := some center }
  | some prev =>
      { last_center := some center
        motion_ema := 0.7 * st.motion_ema + 0.3 * euclidDist prev center }

/-! ## compliance_engine.py -/

/-- `ZoneState` (compliance_engine.py lines 13-17). -/
structure ZoneState where
  state : String
  since : ℚ
  last_seen : Option ℚ
deriving Repr, DecidableEq

/-- A role entry of the compliance model: `role_id` and `permissions`
(the zone types the role may be present in). -/
structure RoleDef where
  role_id : String
  permissions : List String
deriving Repr, DecidableEq

/-- A regulation entry of the compliance model, with the defaults of
`evaluate_zone_compliance` already applied where the code supplies them
(`allowed_absence_seconds` 30, escalation understaffed 120 and
unauthorized 60, severity "high").  `required_roles` lists
`(role_id, min, max)` with the code's defaults min 0 / max 999. -/
structure Regulation where
  zone_type : String
  regulation_id : String
  required_roles : List (String × Int × Int)
  forbidden_roles : List String
  allowed_absence_seconds : Int
  escalation_understaffed : Int
  escalation_unauthorized : Int
  severity : String
deriving Repr, DecidableEq

/-- A zone entry of the compliance model. -/
structure Zone where
  zone_id : String
  type_ : Option String
  camera_ids : List String
deriving Repr, DecidableEq

/-- A record of the presence snapshot returned by `get_current_presence`
(presence_state.py lines 26-38): the `source_id` and `last_seen_ts` fields,
plus the role already extracted from the payload by `_role_from_payload`
(`none` when the payload names no role). -/
structure PresenceRecord where
  source_id : Option String
  role : Option String
  last_seen_ts : ℚ
deriving Repr, DecidableEq

/-- A row of the `zones` output list of `evaluate_zone_compliance`. -/
structure ZoneOut where
  zone_id : String
  regulation_id : Option String
  state : String
  violations : List String
  since : ℚ
  severity : String
deriving Repr, DecidableEq

/-- A row of the `events` output list (`_event_payload`,
compliance_engine.py lines 42-62). -/
structure EventOut where
  zone_id : String
  regulation_id : Option String
  state : String
  violations : List String
  since : ℚ
  severity : String
  ts : ℚ
deriving Repr, DecidableEq

/-- `_event_payload` (compliance_engine.py lines 42-62). -/
def eventPayload (zone_id : String) (regulation_id : Option String)
    (state : String) (violations : List String) (since : ℚ)
    (severity : String) (ts : ℚ) : EventOut :=
  { zone_id := zone_id, regulation_id := regulation_id, state := state,
    violations := violations, since := since, severity := severity, ts := ts }

/-- `camera_to_zone` (compliance_engine.py lines 72-76): a dict built by
assignment over all zones and their cameras, so a later zone claiming the
same camera overrides an earlier one. -/
def cameraToZone (zones : List Zone) : String → Option String :=
  zones.foldl
    (fun f z =>
      z.camera_ids.foldl
        (fun f cam => fun s => if s = cam then some z.zone_id else f s) f)
    (fun _ => none)

/-- The effective role of a presence record:
`_role_from_payload(...) or "unknown"` (compliance_engine.py line 95). -/
def effRole (p : PresenceRecord) : String :=
  p.role.getD "unknown"

/-- One step of the `zone_last_seen` fold (compliance_engine.py lines 90-97),
projected onto a single zone id: the last matching record overwrites the
slot.  `source_id or ""` maps a missing source to the empty string, and a
falsy (empty) zone id is skipped like the code's `if not zone_id`. -/
def lastSeenStep (f : String → Option String) (zid : String)
    (acc : Option ℚ) (p : PresenceRecord) : Option ℚ :=
  match f (p.source_id.getD "") with
  | none => acc
  | some z => if z = "" then acc else if z = zid then some p.last_seen_ts else acc

/-- `zone_last_seen[zid]` after the fold over the presence snapshot
(compliance_engine.py lines 88-97). -/
def zoneLastSeen (f : String → Option String) (presence : List PresenceRecord)
    (zid : String) : Option ℚ :=
  presence.foldl (lastSeenStep f zid) none

/-- Whether a presence record contributes to zone `zid`: its source maps to
a truthy zone id equal to `zid`. -/
def recordMapsTo (f : String → Option String) (zid : String)
    (p : PresenceRecord) : Bool :=
  match f (p.source_id.getD "") with
  | none => false
  | some z => if z = "" then false else z = zid

/-- Increment the count of `role` in an insertion-ordered association list,
appending a fresh entry when absent (`zone_counts[zone_id]`,
compliance_engine.py line 96). -/
def bumpCount : List (String × Nat) → String → List (String × Nat)
  | [], role => [(role, 1)]
  | (a, n) :: rest, role =>
      if a = role then (a, n + 1) :: rest else (a, n) :: bumpCount rest role

/-- `zone_counts[zid]` after the fold over the presence snapshot
(compliance_engine.py lines 87-96). -/
def zoneCounts (f : String → Option String) (presence : List PresenceRecord)
    (zid : String) : List (String × Nat) :=
  presence.foldl
    (fun counts p => if recordMapsTo f zid p then bumpCount counts (effRole p) else counts)
    []

/-- `counts.get(role_id, 0)` on the insertion-ordered association list. -/
def lookupCount (counts : List (String × Nat)) (role : String) : Nat :=
  match counts.find? (fun c => c.1 = role) with
  | none => 0
  | some c => c.2

/-- `roles[role_id]` lookup: the roles dict is built by comprehension, so a
later entry with the same `role_id` wins. -/
def findRole (roles : List RoleDef) (rid : String) : Option RoleDef :=
  (roles.filter (fun r => r.role_id = rid)).getLast?

/-- `regulations[zone_type]` lookup, later entry wins. -/
def findReg (regs : List Regulation) (t : String) : Option Regulation :=
  (regs.filter (fun r => r.zone_type = t)).getLast?

/-- Character-list prefix test, the meaning of Python's `str.startswith`. -/
def listStartsWith : List Char → List Char → Bool
  | _, [] => true
  | [], _ :: _ => false
  | a :: as, b :: bs => a == b && listStartsWith as bs

/-- `v.startswith(prefix)` on strings. -/
def strStartsWith (s pre : String) : Bool :=
  listStartsWith s.data pre.data

/-- The forbidden / unauthorized check (compliance_engine.py lines 174-185):
for each role key of `counts` in insertion order, flag forbidden roles and
roles whose permissions do not include this zone type.  A `None` zone type
is never a member of the permission list, mirroring
`zone_type not in perms`. -/
def unauthorizedViolations (roles : List RoleDef) (zoneType : Option String)
    (forbidden : List String) (countKeys : List String) : List String :=
  countKeys.foldl
    (fun acc role =>
      let acc :=
        if forbidden.contains role then acc ++ ["forbidden:" ++ role] else acc
      match findRole roles role with
      | some rd =>
          if (match zoneType with
              | some t => rd.permissions.contains t
              | none => false) then acc
          else acc ++ ["unauthorized:" ++ role]
      | none =>
          if role ≠ "unknown" then acc ++ ["unauthorized:" ++ role]
          else acc ++ ["unauthorized:unknown"])
    []

/-- The required-roles check (compliance_engine.py lines 187-197): for each
`(role, min, max)` requirement, a count below `min` appends
`missing:role` and sets the state `UNDERSTAFFED`; a count above `max`
appends `over:role` and sets `OVERSTAFFED`. -/
def requiredStep (counts : List (String × Nat)) (acc : List String × String)
    (req : String × Int × Int) : List String × String :=
  let cnt : Int := lookupCount counts req.1
  let acc :=
    if cnt < req.2.1 then (acc.1 ++ ["missing:" ++ req.1], "UNDERSTAFFED")
    else acc
  if cnt > req.2.2 then (acc.1 ++ ["over:" ++ req.1], "OVERSTAFFED")
  else acc

/-- The fold of `requiredStep` over all requirements. -/
def requiredFold (counts : List (String × Nat))
    (required : List (String × Int × Int)) (init : List String × String) :
    List String × String :=
  required.foldl (requiredStep counts) init

/-- The violation and pre-escalation state computation of
`evaluate_zone_compliance` (compliance_engine.py lines 139-203):
unauthorized checks, required-roles checks, the `UNAUTHORIZED_PERSON`
override, and the empty-violations `COMPLIANT` fallback. -/
def computeZoneState (roles : List RoleDef) (zoneType : Option String)
    (counts : List (String × Nat)) (required : List (String × Int × Int))
    (forbidden : List String) : List String × String :=
  let vs0 := unauthorizedViolations roles zoneType forbidden (counts.map (fun c => c.1))
  let acc := requiredFold counts required (vs0, "COMPLIANT")
  let st :=
    if acc.1.any (fun v => strStartsWith v "forbidden" || strStartsWith v "unauthorized")
    then "UNAUTHORIZED_PERSON" else acc.2
  let st := if acc.1 = [] then "COMPLIANT" else st
  (acc.1, st)

/-- One zone iteration of `evaluate_zone_compliance`
(compliance_engine.py lines 102-240), taking the per-zone inputs already
tallied from the snapshot: the regulation found for the zone type (if any),
the role counts, the zone's `zone_last_seen` slot, the cached `ZoneState`
(if any) and the evaluation time.  Returns the zone output row, the event
row, and the new cache entry (`none` when the code leaves the cache
untouched, as in the no-regulation branch). -/
def evalZoneTick (roles : List RoleDef) (reg? : Option Regulation)
    (zoneId : String) (zoneType : Option String)
    (counts : List (String × Nat)) (lastSeen : Option ℚ)
    (prev : Option ZoneState) (now : ℚ) :
    ZoneOut × EventOut × Option ZoneState :=
  match reg? with
  | none =>
      ({ zone_id := zoneId, regulation_id := none, state := "UNKNOWN",
         violations := ["no_regulation"], since := now, severity := "info" },
       eventPayload zoneId none "UNKNOWN" ["no_regulation"] now "info" now,
       none)
  | some reg =>
      match lastSeen with
      | none =>
          let computed := match prev with
            | none => "INITIALIZING"
            | some _ => "UNKNOWN"
          let state_since := match prev with
            | none => now
            | some z => z.since
          ({ zone_id := zoneId, regulation_id := some reg.regulation_id,
             state := computed, violations := [], since := state_since,
             severity := "info" },
           eventPayload zoneId (some reg.regulation_id) computed [] state_since
             "info" now,
           some { state := computed, since := state_since, last_seen := none })
      | some seen =>
          let vc := computeZoneState roles zoneType counts reg.required_roles
            reg.forbidden_roles
          let violations := vc.1
          let computed := vc.2
          let state_since := match prev with
            | none => now
            | some z => if z.state = computed then z.since else now
          let computed :=
            if computed = "UNDERSTAFFED" ∨ computed = "OVERSTAFFED" then
              if (reg.escalation_understaffed : ℚ) < now - state_since then
                "CRITICAL_VIOLATION"
              else computed
            else computed
          let computed :=
            if computed = "UNAUTHORIZED_PERSON" then
              if (reg.escalation_unauthorized : ℚ) < now - state_since then
                "CRITICAL_VIOLATION"
              else computed
            else computed
          ({ zone_id := zoneId, regulation_id := some reg.regulation_id,
             state := computed, violations := violations, since := state_since,
             severity := reg.severity },
           eventPayload zoneId (some reg.regulation_id) computed violations
             state_since reg.severity now,
           some { state := computed, since := state_since, last_seen := some seen })

/-- Cache lookup (`_STATE_CACHE.get(zone_id)`). -/
def lookupCache (cache : List (String × ZoneState)) (zid : String) :
    Option ZoneState :=
  (cache.find? (fun c => c.1 = zid)).map (fun c => c.2)

/-- Cache assignment (`_STATE_CACHE[zone_id] = ...`): replace in place or
append. -/
def setCache : List (String × ZoneState) → String → ZoneState →
    List (String × ZoneState)
  | [], zid, zs => [(zid, zs)]
  | (a, b) :: rest, zid, zs =>
      if a = zid then (a, zs) :: rest else (a, b) :: setCache rest zid zs

/-- The full `evaluate_zone_compliance` loop over the model's zones
(compliance_engine.py lines 99-242), with the presence snapshot, the model
lists and the state cache passed explicitly.  Returns the zone rows, the
event rows and the updated cache. -/
def evaluateZones (roles : List RoleDef) (zones : List Zone)
    (regs : List Regulation) (presence : List PresenceRecord)
    (cache : List (String × ZoneState)) (now : ℚ) :
    List ZoneOut × List EventOut × List (String × ZoneState) :=
  let f := cameraToZone zones
  zones.foldl
    (fun acc z =>
      let reg? := z.type_.bind (findReg regs)
      let r := evalZoneTick roles reg? z.zone_id z.type_
        (zoneCounts f presence z.zone_id) (zoneLastSeen f presence z.zone_id)
        (lookupCache acc.2.2 z.zone_id) now
      (acc.1 ++ [r.1], acc.2.1 ++ [r.2.1],
       match r.2.2 with
       | none => acc.2.2
       | some zs => setCache acc.2.2 z.zone_id zs))
    ([], [], cache)

/-! ## Theorems about the behavior rules engine -/

/-- `updateTrackers` never changes `last_state` (behavior.py lines 51-67 only
assign the four "since" fields). -/
theorem updateTrackers_last_state (st : BehaviorState) (sig : BehaviorSignals)
    (now : ℚ) : (updateTrackers st sig now).last_state = st.last_state := by
  unfold updateTrackers
  split
  · split <;> rfl
  · rfl

/-- C1: Away dominance — for every config, state and signal input, on any
tick where the elapsed no-face duration (computed from the updated tracker,
clamped at 0) is at least `away_seconds`, `update_behavior_state` returns
"away" and sets `last_state` to "away", regardless of motion signals and of
the previous state. -/
theorem behavior_away_dominance (cfg : BehaviorConfig) (st : BehaviorState)
    (sig : BehaviorSignals) (now : ℚ)
    (h : cfg.away_seconds ≤
      sinceElapsed now (updateTrackers st sig now).no_face_since) :
    (update_behavior_state cfg st sig now).2 = "away" ∧
    (update_behavior_state cfg st sig now).1.last_state = some "away" := by
  unfold update_behavior_state decideState
  rw [if_pos h]
  exact ⟨rfl, rfl⟩

/-- Witness for C1 at a concrete input: no face for 150s with
`away_seconds = 120`. -/
theorem behavior_away_dominance_witness :
    ((⟨30, 60, 120⟩ : BehaviorConfig).away_seconds ≤
      sinceElapsed 200
        (updateTrackers ⟨some "active", none, some 10, none, none⟩
          ⟨false, 5, 1⟩ 200).no_face_since) ∧
    (update_behavior_state ⟨30, 60, 120⟩ ⟨some "active", none, some 10, none, none⟩
      ⟨false, 5, 1⟩ 200).2 = "away" ∧
    (update_behavior_state ⟨30, 60, 120⟩ ⟨some "active", none, some 10, none, none⟩
      ⟨false, 5, 1⟩ 200).1.last_state = some "away" :=
  ⟨by norm_num [updateTrackers, sinceElapsed, pyOr],
   behavior_away_dominance ⟨30, 60, 120⟩ ⟨some "active", none, some 10, none, none⟩
     ⟨false, 5, 1⟩ 200 (by norm_num [updateTrackers, sinceElapsed, pyOr])⟩

/-- C5: Return optimism — with positive confirmation windows, from cached
state "away", a tick with the face present (so the elapsed no-face time is
0, below `away_seconds`) immediately yields "active" when
`motion_value >= motion_threshold` and "idle" otherwise, with `last_state`
updated to match. -/
theorem behavior_return_optimism (cfg : BehaviorConfig) (st : BehaviorState)
    (sig : BehaviorSignals) (now : ℚ)
    (hlast : st.last_state = some "away")
    (hface : sig.face_present = true)
    (haway : 0 < cfg.away_seconds)
    (hidle : 0 < cfg.idle_seconds)
    (hconf : 0 < cfg.active_confirm_seconds) :
    (update_behavior_state cfg st sig now).2 =
      (if sig.motion_threshold ≤ sig.motion_value then "active" else "idle") ∧
    (update_behavior_state cfg st sig now).1.last_state =
      some (if sig.motion_threshold ≤ sig.motion_value then "active" else "idle") := by
  by_cases hm : sig.motion_threshold ≤ sig.motion_value
  · by_cases hc : cfg.active_confirm_seconds ≤
        sinceElapsed now (some (pyOr st.motion_active_since now))
    · simp [update_behavior_state, decideState, updateTrackers, hface, hm, hc,
        hlast, sinceElapsed, not_le.mpr haway, not_le.mpr hidle]
    · simp [update_behavior_state, decideState, updateTrackers, hface, hm, hc,
        hlast, sinceElapsed, not_le.mpr haway, not_le.mpr hidle]
  · by_cases hi : cfg.idle_seconds ≤
        sinceElapsed now (some (pyOr st.no_motion_since now))
    · simp [update_behavior_state, decideState, updateTrackers, hface, hm, hi,
        hlast, sinceElapsed, not_le.mpr haway, not_le.mpr hconf]
    · simp [update_behavior_state, decideState, updateTrackers, hface, hm, hi,
        hlast, sinceElapsed, not_le.mpr haway, not_le.mpr hconf]

/-- Witness for C5 at a concrete input: returning from "away" with motion
active yields "active" immediately. -/
theorem behavior_return_optimism_witness :
    (⟨some "away", none, some 100, none, none⟩ : BehaviorState).last_state = some "away" ∧
    (update_behavior_state ⟨30, 60, 120⟩ ⟨some "away", none, some 100, none, none⟩
      ⟨true, 5, 1⟩ 110).2 =
      (if (⟨true, 5, 1⟩ : BehaviorSignals).motion_threshold ≤
          (⟨true, 5, 1⟩ : BehaviorSignals).motion_value then "active" else "idle") :=
  ⟨rfl,
   (behavior_return_optimism ⟨30, 60, 120⟩ ⟨some "away", none, some 100, none, none⟩
     ⟨true, 5, 1⟩ 110 rfl rfl (by norm_num) (by norm_num) (by norm_num)).1⟩

/-- C7: Stickiness — with the face present and the elapsed no-face time
below `away_seconds`, a cached "active" state survives a tick whose motion
is below threshold when the elapsed no-motion time is below `idle_seconds`,
and a cached "idle" state survives a tick that confirms no rule (all three
elapsed durations below their windows); in both cases the output and
`last_state` equal the previous state. -/
theorem behavior_stickiness (cfg : BehaviorConfig) (st : BehaviorState)
    (sig : BehaviorSignals) (now : ℚ)
    (hface : sig.face_present = true)
    (haway : sinceElapsed now (updateTrackers st sig now).no_face_since <
      cfg.away_seconds) :
    (st.last_state = some "active" → sig.motion_value < sig.motion_threshold →
      sinceElapsed now (updateTrackers st sig now).no_motion_since <
        cfg.idle_seconds →
      (update_behavior_state cfg st sig now).2 = "active" ∧
      (update_behavior_state cfg st sig now).1.last_state = some "active") ∧
    (st.last_state = some "idle" →
      sinceElapsed now (updateTrackers st sig now).no_motion_since <
        cfg.idle_seconds →
      sinceElapsed now (updateTrackers st sig now).motion_active_since <
        cfg.active_confirm_seconds →
      (update_behavior_state cfg st sig now).2 = "idle" ∧
      (update_behavior_state cfg st sig now).1.last_state = some "idle") := by
  constructor
  · intro hlast _hm hnm
    unfold update_behavior_state decideState
    rw [if_neg (not_le.mpr haway)]
    rw [if_neg (fun h => absurd h.2 (not_le.mpr hnm))]
    by_cases hc : (sig.face_present = true) ∧ cfg.active_confirm_seconds ≤
        sinceElapsed now (updateTrackers st sig now).motion_active_since
    · rw [if_pos hc]
      exact ⟨rfl, rfl⟩
    · rw [if_neg hc]
      rw [if_pos ⟨by rw [updateTrackers_last_state, hlast], hface⟩]
      exact ⟨rfl, by rw [updateTrackers_last_state, hlast]⟩
  · intro hlast hnm hc
    unfold update_behavior_state decideState
    rw [if_neg (not_le.mpr haway)]
    rw [if_neg (fun h => absurd h.2 (not_le.mpr hnm))]
    rw [if_neg (fun h => absurd h.2 (not_le.mpr hc))]
    have h4 : ¬((updateTrackers st sig now).last_state = some "active" ∧
        sig.face_present = true) := by
      rw [updateTrackers_last_state, hlast]
      rintro ⟨h, -⟩
      simp at h
    rw [if_neg h4]
    rw [if_pos ⟨by rw [updateTrackers_last_state, hlast], hface⟩]
    exact ⟨rfl, by rw [updateTrackers_last_state, hlast]⟩

/-- Witness for C7 at a concrete input: a cached "active" state is kept over
a below-threshold tick inside the confirmation window. -/
theorem behavior_stickiness_witness :
    ((⟨true, 0, 1⟩ : BehaviorSignals).face_present = true) ∧
    (sinceElapsed 10 (updateTrackers ⟨some "active", some 2, none, none, some 5⟩
      ⟨true, 0, 1⟩ 10).no_face_since < (120 : ℚ)) ∧
    (update_behavior_state ⟨30, 60, 120⟩ ⟨some "active", some 2, none, none, some 5⟩
      ⟨true, 0, 1⟩ 10).2 = "active" :=
  ⟨rfl, by norm_num [updateTrackers, sinceElapsed, pyOr],
   ((behavior_stickiness ⟨30, 60, 120⟩ ⟨some "active", some 2, none, none, some 5⟩
       ⟨true, 0, 1⟩ 10 rfl (by norm_num [updateTrackers, sinceElapsed, pyOr])).1
     rfl (by norm_num) (by norm_num [updateTrackers, sinceElapsed, pyOr])).1⟩

/-- C6 counterexample: with the face present on consecutive ticks (the
tracker is already set, so the tracked condition is unchanged), a stored
`face_present_since` timestamp of exactly 0 is re-stamped to the current
tick's time instead of being left unchanged, because Python's
`st.face_present_since or now_ts` treats the float `0.0` as falsy. -/
theorem behavior_since_tracking_cex :
    (⟨some "active", some 0, none, none, none⟩ : BehaviorState).face_present_since
      = some 0 ∧
    (⟨true, 5, 1⟩ : BehaviorSignals).face_present = true ∧
    (updateTrackers ⟨some "active", some 0, none, none, none⟩ ⟨true, 5, 1⟩
      5).face_present_since = some 5 ∧
    some (5 : ℚ) ≠ some (0 : ℚ) := by
  refine ⟨rfl, rfl, ?_, by norm_num⟩
  norm_num [updateTrackers, pyOr]

/-- C6 (amended): idempotent "since" tracking — provided the stored
timestamp is nonzero (Python's `or` treats a stored `0.0` as unset and
re-stamps it), a tick on which the tracked condition is unchanged leaves
each tracker's timestamp unchanged; a tick on which a condition flips sets
the newly-true condition's tracker to the tick's `now` and clears the
opposite tracker to `None`.  The motion trackers are only maintained while
the face is present (both are cleared when it is absent). -/
theorem behavior_since_tracking (st : BehaviorState) (sig : BehaviorSignals)
    (now t : ℚ) (ht : t ≠ 0) :
    (sig.face_present = true → st.face_present_since = some t →
      (updateTrackers st sig now).face_present_since = some t) ∧
    (sig.face_present = false → st.no_face_since = some t →
      (updateTrackers st sig now).no_face_since = some t) ∧
    (sig.face_present = true → sig.motion_threshold ≤ sig.motion_value →
      st.motion_active_since = some t →
      (updateTrackers st sig now).motion_active_since = some t) ∧
    (sig.face_present = true → sig.motion_value < sig.motion_threshold →
      st.no_motion_since = some t →
      (updateTrackers st sig now).no_motion_since = some t) ∧
    (sig.face_present = true → st.face_present_since = none →
      (updateTrackers st sig now).face_present_since = some now ∧
      (updateTrackers st sig now).no_face_since = none) ∧
    (sig.face_present = false → st.no_face_since = none →
      (updateTrackers st sig now).no_face_since = some now ∧
      (updateTrackers st sig now).face_present_since = none) ∧
    (sig.face_present = true → sig.motion_threshold ≤ sig.motion_value →
      st.motion_active_since = none →
      (updateTrackers st sig now).motion_active_since = some now ∧
      (updateTrackers st sig now).no_motion_since = none) ∧
    (sig.face_present = true → sig.motion_value < sig.motion_threshold →
      st.no_motion_since = none →
      (updateTrackers st sig now).no_motion_since = some now ∧
      (updateTrackers st sig now).motion_active_since = none) := by
  refine ⟨?_, ?_, ?_, ?_, ?_, ?_, ?_, ?_⟩
  · intro hf h1
    by_cases hm : sig.motion_threshold ≤ sig.motion_value <;>
      simp [updateTrackers, hf, hm, h1, pyOr, ht]
  · intro hf h1
    simp [updateTrackers, hf, h1, pyOr, ht]
  · intro hf hm h1
    simp [updateTrackers, hf, hm, h1, pyOr, ht]
  · intro hf hm h1
    simp [updateTrackers, hf, not_le.mpr hm, h1, pyOr, ht]
  · intro hf h1
    by_cases hm : sig.motion_threshold ≤ sig.motion_value <;>
      simp [updateTrackers, hf, hm, h1, pyOr]
  · intro hf h1
    simp [updateTrackers, hf, h1, pyOr]
  · intro hf hm h1
    simp [updateTrackers, hf, hm, h1, pyOr]
  · intro hf hm h1
    simp [updateTrackers, hf, not_le.mpr hm, h1, pyOr]

/-- Witness for C6 (amended) at a concrete input: a nonzero
`face_present_since` survives a face-present tick unchanged. -/
theorem behavior_since_tracking_witness :
    ((7 : ℚ) ≠ 0) ∧
    (updateTrackers ⟨none, some 7, none, none, none⟩ ⟨true, 5, 1⟩
      9).face_present_since = some 7 :=
  ⟨by norm_num,
   (behavior_since_tracking ⟨none, some 7, none, none, none⟩ ⟨true, 5, 1⟩ 9 7
     (by norm_num)).1 rfl rfl⟩

/-! ## Theorems about the motion EMA and the compliance engine -/

/-- C8: Motion EMA update — when a position sample arrives and a previous
center exists, the EMA is updated exactly once as
`ema' = 0.7 * ema + 0.3 * sample` with the sample being the Euclidean
distance between the new and previous centers; with no previous center the
EMA is left untouched, and a freshly created subject starts at EMA 0, so
its first sighting leaves the EMA at 0. -/
theorem motion_ema_update (st : SubjectMotion) (c : ℝ × ℝ) :
    ((observeCenter st c).motion_ema =
      match st.last_center with
      | none => st.motion_ema
      | some prev => 0.7 * st.motion_ema + 0.3 * euclidDist prev c) ∧
    initSubjectMotion.motion_ema = 0 ∧
    (observeCenter initSubjectMotion c).motion_ema = 0 := by
  refine ⟨?_, rfl, rfl⟩
  obtain ⟨lc, ema⟩ := st
  cases lc <;> rfl

/-- C4 counterexample: a zone whose type has no regulation entry and no
prior cached state is reported as "UNKNOWN" (not "INITIALIZING") and with
the non-empty violations list `["no_regulation"]`, contrary to the claim's
cache-dependent state and empty violations list. -/
theorem compliance_no_regulation_cex :
    (evalZoneTick [] none "z1" none [] none none 5).1.state = "UNKNOWN" ∧
    (evalZoneTick [] none "z1" none [] none none 5).1.state ≠ "INITIALIZING" ∧
    (evalZoneTick [] none "z1" none [] none none 5).1.violations =
      ["no_regulation"] ∧
    (evalZoneTick [] none "z1" none [] none none 5).1.violations ≠
      ([] : List String) := by
  refine ⟨rfl, ?_, rfl, ?_⟩ <;> decide

/-- C4 (amended): No-regulation degradation — for every zone whose type has
no regulation entry, `evaluate_zone_compliance` does not raise (the
evaluation is total); it always emits state "UNKNOWN" with violations
`["no_regulation"]` and severity "info" and `since = now`, independently of
any cached `ZoneState`, and leaves the cache entry untouched. -/
theorem compliance_no_regulation (roles : List RoleDef) (zoneId : String)
    (zoneType : Option String) (counts : List (String × Nat))
    (lastSeen : Option ℚ) (prev : Option ZoneState) (now : ℚ) :
    evalZoneTick roles none zoneId zoneType counts lastSeen prev now =
      ({ zone_id := zoneId, regulation_id := none, state := "UNKNOWN",
         violations := ["no_regulation"], since := now, severity := "info" },
       eventPayload zoneId none "UNKNOWN" ["no_regulation"] now "info" now,
       none) := rfl

/-- A single required-roles step only ever keeps the incoming state or sets
"UNDERSTAFFED" / "OVERSTAFFED". -/
theorem requiredStep_state (counts : List (String × Nat))
    (acc : List String × String) (req : String × Int × Int) :
    (requiredStep counts acc req).2 = acc.2 ∨
    (requiredStep counts acc req).2 = "UNDERSTAFFED" ∨
    (requiredStep counts acc req).2 = "OVERSTAFFED" := by
  dsimp only [requiredStep]
  split_ifs <;> simp

/-- The required-roles fold only ever keeps the initial state or sets
"UNDERSTAFFED" / "OVERSTAFFED". -/
theorem requiredFold_state (counts : List (String × Nat))
    (required : List (String × Int × Int)) :
    ∀ init : List String × String,
      (requiredFold counts required init).2 = init.2 ∨
      (requiredFold counts required init).2 = "UNDERSTAFFED" ∨
      (requiredFold counts required init).2 = "OVERSTAFFED" := by
  induction required with
  | nil => intro init; exact Or.inl rfl
  | cons r rs ih =>
      intro init
      have h1 := requiredStep_state counts init r
      have h2 := ih (requiredStep counts init r)
      have heq : requiredFold counts (r :: rs) init =
          requiredFold counts rs (requiredStep counts init r) := rfl
      rw [heq]
      rcases h2 with h2 | h2 | h2
      · rw [h2]; exact h1
      · exact Or.inr (Or.inl h2)
      · exact Or.inr (Or.inr h2)

/-- The pre-escalation computed state is one of the four base states; in
particular it is never "CRITICAL_VIOLATION". -/
theorem computeZoneState_cases (roles : List RoleDef) (zoneType : Option String)
    (counts : List (String × Nat)) (required : List (String × Int × Int))
    (forbidden : List String) :
    (computeZoneState roles zoneType counts required forbidden).2 = "COMPLIANT" ∨
    (computeZoneState roles zoneType counts required forbidden).2 = "UNDERSTAFFED" ∨
    (computeZoneState roles zoneType counts required forbidden).2 = "OVERSTAFFED" ∨
    (computeZoneState roles zoneType counts required forbidden).2 =
      "UNAUTHORIZED_PERSON" := by
  dsimp only [computeZoneState]
  have h := requiredFold_state counts required
    (unauthorizedViolations roles zoneType forbidden (counts.map (fun c => c.1)),
     "COMPLIANT")
  split_ifs with h1 h2
  · exact Or.inl rfl
  · exact Or.inr (Or.inr (Or.inr rfl))
  · rcases h with h | h | h
    · exact Or.inl h
    · exact Or.inr (Or.inl h)
    · exact Or.inr (Or.inr (Or.inl h))

/-- The pre-escalation computed state is never "CRITICAL_VIOLATION". -/
theorem computeZoneState_ne_critical (roles : List RoleDef)
    (zoneType : Option String) (counts : List (String × Nat))
    (required : List (String × Int × Int)) (forbidden : List String) :
    (computeZoneState roles zoneType counts required forbidden).2 ≠
      "CRITICAL_VIOLATION" := by
  rcases computeZoneState_cases roles zoneType counts required forbidden with
    h | h | h | h <;> rw [h] <;> decide

/-- C2 counterexample: two consecutive evaluations of the same zone (the
second starts from exactly the cache entry the first wrote).  Tick 1 at
`now = 10` emits "UNDERSTAFFED" with `since = 0`; tick 2 at `now = 200`
computes the same pre-escalation state from unchanged presence but is
promoted by escalation, so its emitted state "CRITICAL_VIOLATION" differs
from tick 1's state while its emitted `since` is still 0, not the second
tick's timestamp 200 — refuting the claim that a state change always
resets `since` to `now`. -/
theorem compliance_hysteresis_cex :
    (evalZoneTick [⟨"nurse", ["ward"]⟩]
      (some ⟨"ward", "REG-1", [("nurse", 2, 999)], [], 30, 120, 60, "high"⟩)
      "z1" (some "ward") [("nurse", 1)] (some 8)
      (some ⟨"UNDERSTAFFED", 0, some 3⟩) 10).2.2 =
      some ⟨"UNDERSTAFFED", 0, some 8⟩ ∧
    (evalZoneTick [⟨"nurse", ["ward"]⟩]
      (some ⟨"ward", "REG-1", [("nurse", 2, 999)], [], 30, 120, 60, "high"⟩)
      "z1" (some "ward") [("nurse", 1)] (some 8)
      (some ⟨"UNDERSTAFFED", 0, some 3⟩) 10).1.state = "UNDERSTAFFED" ∧
    (evalZoneTick [⟨"nurse", ["ward"]⟩]
      (some ⟨"ward", "REG-1", [("nurse", 2, 999)], [], 30, 120, 60, "high"⟩)
      "z1" (some "ward") [("nurse", 1)] (some 195)
      (some ⟨"UNDERSTAFFED", 0, some 8⟩) 200).1.state = "CRITICAL_VIOLATION" ∧
    (evalZoneTick [⟨"nurse", ["ward"]⟩]
      (some ⟨"ward", "REG-1", [("nurse", 2, 999)], [], 30, 120, 60, "high"⟩)
      "z1" (some "ward") [("nurse", 1)] (some 195)
      (some ⟨"UNDERSTAFFED", 0, some 8⟩) 200).1.since = 0 ∧
    (0 : ℚ) ≠ 200 := by
  have hc : computeZoneState [⟨"nurse", ["ward"]⟩] (some "ward")
      [("nurse", 1)] [("nurse", 2, 999)] [] =
      (["missing:nurse"], "UNDERSTAFFED") := by decide
  refine ⟨?_, ?_, ?_, ?_, by norm_num⟩ <;>
    · simp only [evalZoneTick, hc]
      norm_num

/-- C2 (amended): Compliance hysteresis — for a zone with a regulation and
recent presence, the emitted `since` is the cached `since` when the
pre-escalation computed state equals the cached state and the evaluation
timestamp `now` otherwise; the written cache entry stores exactly the
emitted state and emitted `since`, so an unchanged computed state keeps
`since` identical across consecutive ticks.  (The escalation promotion to
"CRITICAL_VIOLATION" changes the emitted state while preserving `since`,
which is the one exception to "state change resets `since` to `now`".) -/
theorem compliance_hysteresis (roles : List RoleDef) (reg : Regulation)
    (zoneId : String) (zoneType : Option String) (counts : List (String × Nat))
    (seen : ℚ) (z : ZoneState) (now : ℚ) (v : List String) (s : String)
    (hcomp : computeZoneState roles zoneType counts reg.required_roles
      reg.forbidden_roles = (v, s)) :
    (evalZoneTick roles (some reg) zoneId zoneType counts (some seen) (some z)
        now).1.since = (if z.state = s then z.since else now) ∧
    (evalZoneTick roles (some reg) zoneId zoneType counts (some seen) (some z)
        now).2.2 = some
      { state := (evalZoneTick roles (some reg) zoneId zoneType counts
          (some seen) (some z) now).1.state,
        since := (evalZoneTick roles (some reg) zoneId zoneType counts
          (some seen) (some z) now).1.since,
        last_seen := some seen } := by
  simp only [evalZoneTick, hcomp]
  exact ⟨trivial, trivial⟩

/-- Witness for C2 (amended) at a concrete input: unchanged computed state
keeps the cached `since`. -/
theorem compliance_hysteresis_witness :
    computeZoneState [⟨"nurse", ["ward"]⟩] (some "ward") [("nurse", 1)]
      [("nurse", 2, 999)] [] = (["missing:nurse"], "UNDERSTAFFED") ∧
    (evalZoneTick [⟨"nurse", ["ward"]⟩]
      (some ⟨"ward", "REG-1", [("nurse", 2, 999)], [], 30, 120, 60, "high"⟩)
      "z1" (some "ward") [("nurse", 1)] (some 8)
      (some ⟨"UNDERSTAFFED", 0, some 3⟩) 10).1.since =
      (if ("UNDERSTAFFED" : String) = "UNDERSTAFFED" then (0 : ℚ) else 10) :=
  ⟨by decide,
   (compliance_hysteresis [⟨"nurse", ["ward"]⟩]
     ⟨"ward", "REG-1", [("nurse", 2, 999)], [], 30, 120, 60, "high"⟩
     "z1" (some "ward") [("nurse", 1)] 8 ⟨"UNDERSTAFFED", 0, some 3⟩ 10
     ["missing:nurse"] "UNDERSTAFFED" (by decide)).1⟩

/-- C3 counterexample: a zone continuously "UNDERSTAFFED" for exactly the
120-second escalation threshold (`now - since = 120`) is still emitted as
"UNDERSTAFFED", not "CRITICAL_VIOLATION": the boundary is exclusive
(`>`), contrary to the claim's inclusive boundary. -/
theorem compliance_escalation_cex :
    (evalZoneTick [⟨"nurse", ["ward"]⟩]
      (some ⟨"ward", "REG-1", [("nurse", 2, 999)], [], 30, 120, 60, "high"⟩)
      "z1" (some "ward") [("nurse", 1)] (some 100)
      (some ⟨"UNDERSTAFFED", 0, some 90⟩) 120).1.state = "UNDERSTAFFED" ∧
    (evalZoneTick [⟨"nurse", ["ward"]⟩]
      (some ⟨"ward", "REG-1", [("nurse", 2, 999)], [], 30, 120, 60, "high"⟩)
      "z1" (some "ward") [("nurse", 1)] (some 100)
      (some ⟨"UNDERSTAFFED", 0, some 90⟩) 120).1.state ≠
      "CRITICAL_VIOLATION" := by
  have hc : computeZoneState [⟨"nurse", ["ward"]⟩] (some "ward")
      [("nurse", 1)] [("nurse", 2, 999)] [] =
      (["missing:nurse"], "UNDERSTAFFED") := by decide
  constructor <;>
    · simp only [evalZoneTick, hc]
      norm_num
      all_goals decide

/-- C3 (amended): Escalation boundary is exclusive — for a zone whose
cached state is "UNDERSTAFFED" and whose pre-escalation computed state is
again "UNDERSTAFFED", the emitted state is "CRITICAL_VIOLATION" exactly
when `now - since` strictly exceeds the `understaffed` escalation
threshold; at `now - since` equal to the threshold (and below it) the
emitted state stays "UNDERSTAFFED". -/
theorem compliance_escalation_boundary (roles : List RoleDef)
    (reg : Regulation) (zoneId : String) (zoneType : Option String)
    (counts : List (String × Nat)) (seen : ℚ) (z : ZoneState) (now : ℚ)
    (v : List String)
    (hcomp : computeZoneState roles zoneType counts reg.required_roles
      reg.forbidden_roles = (v, "UNDERSTAFFED"))
    (hprev : z.state = "UNDERSTAFFED") :
    (evalZoneTick roles (some reg) zoneId zoneType counts (some seen) (some z)
        now).1.state =
      if (reg.escalation_understaffed : ℚ) < now - z.since then
        "CRITICAL_VIOLATION"
      else "UNDERSTAFFED" := by
  simp only [evalZoneTick, hcomp, hprev]
  by_cases hth : (reg.escalation_understaffed : ℚ) < now - z.since <;>
    simp [hth]

/-- Witness for C3 (amended) at a concrete input: at `now - since`
strictly above the threshold the zone escalates. -/
theorem compliance_escalation_boundary_witness :
    computeZoneState [⟨"nurse", ["ward"]⟩] (some "ward") [("nurse", 1)]
      [("nurse", 2, 999)] [] = (["missing:nurse"], "UNDERSTAFFED") ∧
    (evalZoneTick [⟨"nurse", ["ward"]⟩]
      (some ⟨"ward", "REG-1", [("nurse", 2, 999)], [], 30, 120, 60, "high"⟩)
      "z1" (some "ward") [("nurse", 1)] (some 100)
      (some ⟨"UNDERSTAFFED", 0, some 90⟩) 121).1.state =
      (if ((120 : Int) : ℚ) < (121 : ℚ) - 0 then "CRITICAL_VIOLATION"
       else "UNDERSTAFFED") :=
  ⟨by decide,
   compliance_escalation_boundary [⟨"nurse", ["ward"]⟩]
     ⟨"ward", "REG-1", [("nurse", 2, 999)], [], 30, 120, 60, "high"⟩
     "z1" (some "ward") [("nurse", 1)] 100 ⟨"UNDERSTAFFED", 0, some 90⟩ 121
     ["missing:nurse"] (by decide) rfl⟩

/-- C10: Critical state never persists — if one evaluation cached
"CRITICAL_VIOLATION" for a zone and the next evaluation (with nonnegative
escalation thresholds, as in the model's data and defaults) computes any
pre-escalation state `s` from the presence conditions, then that next
evaluation emits `s` itself with `since` reset to its own timestamp, and in
particular never emits "CRITICAL_VIOLATION" again on this consecutive tick:
the cached escalated state makes the state-equality check fail, so `since`
becomes `now` and the elapsed time 0 cannot exceed the threshold. -/
theorem critical_never_persists (roles : List RoleDef) (reg : Regulation)
    (zoneId : String) (zoneType : Option String) (counts : List (String × Nat))
    (seen : ℚ) (z : ZoneState) (now : ℚ) (v : List String) (s : String)
    (hprev : z.state = "CRITICAL_VIOLATION")
    (hU : 0 ≤ reg.escalation_understaffed)
    (hA : 0 ≤ reg.escalation_unauthorized)
    (hcomp : computeZoneState roles zoneType counts reg.required_roles
      reg.forbidden_roles = (v, s)) :
    (evalZoneTick roles (some reg) zoneId zoneType counts (some seen) (some z)
        now).1.state = s ∧
    (evalZoneTick roles (some reg) zoneId zoneType counts (some seen) (some z)
        now).1.since = now ∧
    (evalZoneTick roles (some reg) zoneId zoneType counts (some seen) (some z)
        now).1.state ≠ "CRITICAL_VIOLATION" := by
  have hU' : ¬ ((reg.escalation_understaffed : ℚ) < 0) :=
    not_lt.mpr (by exact_mod_cast hU)
  have hA' : ¬ ((reg.escalation_unauthorized : ℚ) < 0) :=
    not_lt.mpr (by exact_mod_cast hA)
  have hcases := computeZoneState_cases roles zoneType counts
    reg.required_roles reg.forbidden_roles
  rw [hcomp] at hcases
  rcases hcases with h | h | h | h <;> subst h <;>
    simp [evalZoneTick, hcomp, hprev, sub_self, hU', hA']

/-- Witness for C10 at a concrete input: the tick after a cached
"CRITICAL_VIOLATION" with a persisting understaffing emits "UNDERSTAFFED"
with `since = now`. -/
theorem critical_never_persists_witness :
    ((⟨"CRITICAL_VIOLATION", 0, some 8⟩ : ZoneState).state =
      "CRITICAL_VIOLATION") ∧
    ((0 : Int) ≤ 120) ∧ ((0 : Int) ≤ 60) ∧
    (evalZoneTick [⟨"nurse", ["ward"]⟩]
      (some ⟨"ward", "REG-1", [("nurse", 2, 999)], [], 30, 120, 60, "high"⟩)
      "z1" (some "ward") [("nurse", 1)] (some 195)
      (some ⟨"CRITICAL_VIOLATION", 0, some 8⟩) 200).1.state = "UNDERSTAFFED" ∧
    (evalZoneTick [⟨"nurse", ["ward"]⟩]
      (some ⟨"ward", "REG-1", [("nurse", 2, 999)], [], 30, 120, 60, "high"⟩)
      "z1" (some "ward") [("nurse", 1)] (some 195)
      (some ⟨"CRITICAL_VIOLATION", 0, some 8⟩) 200).1.since = 200 :=
  ⟨rfl, by decide, by decide,
   (critical_never_persists [⟨"nurse", ["ward"]⟩]
     ⟨"ward", "REG-1", [("nurse", 2, 999)], [], 30, 120, 60, "high"⟩
     "z1" (some "ward") [("nurse", 1)] 195 ⟨"CRITICAL_VIOLATION", 0, some 8⟩
     200 ["missing:nurse"] "UNDERSTAFFED" rfl (by decide) (by decide)
     (by decide)).1,
   (critical_never_persists [⟨"nurse", ["ward"]⟩]
     ⟨"ward", "REG-1", [("nurse", 2, 999)], [], 30, 120, 60, "high"⟩
     "z1" (some "ward") [("nurse", 1)] 195 ⟨"CRITICAL_VIOLATION", 0, some 8⟩
     200 ["missing:nurse"] "UNDERSTAFFED" rfl (by decide) (by decide)
     (by decide)).2.1⟩

/-- `getLast?` of a cons in terms of the tail's `getLast?`. -/
theorem getLast?_cons_elim {α : Type _} (a : α) (l : List α) :
    (a :: l).getLast? = l.getLast?.elim (some a) some := by
  induction l generalizing a with
  | nil => rfl
  | cons b t ih =>
      rw [List.getLast?_cons_cons, ih b]
      cases t.getLast? <;> rfl

/-- A `zone_last_seen` fold step overwrites the slot exactly when the
record maps to the zone. -/
theorem lastSeenStep_eq (f : String → Option String) (zid : String)
    (acc : Option ℚ) (p : PresenceRecord) :
    lastSeenStep f zid acc p =
      if recordMapsTo f zid p then some p.last_seen_ts else acc := by
  unfold lastSeenStep recordMapsTo
  cases f (p.source_id.getD "") with
  | none => simp
  | some z =>
      by_cases h1 : z = ""
      · simp [h1]
      · by_cases h2 : z = zid <;> simp [h1, h2]

/-- The `zone_last_seen` fold yields the timestamp of the last record of
the snapshot (in iteration order) that maps to the zone. -/
theorem zoneLastSeen_foldl (f : String → Option String) (zid : String)
    (l : List PresenceRecord) :
    ∀ acc : Option ℚ,
      l.foldl (lastSeenStep f zid) acc =
        ((l.filter (recordMapsTo f zid)).getLast?).elim acc
          (fun p => some p.last_seen_ts) := by
  induction l with
  | nil => intro acc; rfl
  | cons p t ih =>
      intro acc
      rw [List.foldl_cons, ih, lastSeenStep_eq]
      by_cases hp : recordMapsTo f zid p = true
      · rw [List.filter_cons_of_pos hp, if_pos hp, getLast?_cons_elim]
        cases (t.filter (recordMapsTo f zid)).getLast? <;> rfl
      · rw [List.filter_cons_of_neg (by simpa using hp), if_neg hp]

/-- C9 counterexample: a snapshot holding two records of the same camera in
descending timestamp order (as `get_current_presence` returns them, sorted
most recent first).  The fold keeps the timestamp of the *last* record, 5,
which is the minimum, not the most recent timestamp 10 — refuting the
claim that the per-zone last-seen equals the maximum and is order
independent. -/
theorem zone_last_seen_cex :
    zoneLastSeen (fun s => if s = "cam1" then some "z1" else none)
      [⟨some "cam1", none, 10⟩, ⟨some "cam1", none, 5⟩] "z1" = some 5 ∧
    some (5 : ℚ) ≠ some (10 : ℚ) ∧
    max (10 : ℚ) 5 = 10 := by
  refine ⟨by decide, by norm_num, by norm_num⟩

/-- C9 (amended): Per-zone last-seen is last-record-wins — the
`zone_last_seen` slot equals the `last_seen_ts` of the final record in
snapshot iteration order among those mapping to the zone (for the
descending-sorted snapshots of `get_current_presence`, the oldest rather
than the most recent), and it is populated iff some record of the snapshot
maps to the zone — which is all the downstream no-recent-events branch
depends on. -/
theorem zone_last_seen_fold (f : String → Option String)
    (presence : List PresenceRecord) (zid : String) :
    zoneLastSeen f presence zid =
      ((presence.filter (recordMapsTo f zid)).getLast?).map
        (fun p => p.last_seen_ts) ∧
    (zoneLastSeen f presence zid ≠ none ↔
      ∃ p ∈ presence, recordMapsTo f zid p = true) := by
  have h1 : zoneLastSeen f presence zid =
      ((presence.filter (recordMapsTo f zid)).getLast?).map
        (fun p => p.last_seen_ts) := by
    rw [zoneLastSeen, zoneLastSeen_foldl]
    cases (presence.filter (recordMapsTo f zid)).getLast? <;> rfl
  refine ⟨h1, ?_⟩
  rw [h1]
  constructor
  · intro hne
    have hfil : presence.filter (recordMapsTo f zid) ≠ [] := by
      intro he
      rw [he] at hne
      exact hne rfl
    rcases List.exists_mem_of_ne_nil _ hfil with ⟨q, hq⟩
    have hq' := List.mem_filter.mp hq
    exact ⟨q, hq'.1, hq'.2⟩
  · rintro ⟨p, hp, hpred⟩
    have hmem : p ∈ presence.filter (recordMapsTo f zid) :=
      List.mem_filter.mpr ⟨hp, hpred⟩
    have hne : presence.filter (recordMapsTo f zid) ≠ [] :=
      List.ne_nil_of_mem hmem
    have hsome := List.getLast?_isSome.mpr hne
    cases hl : (presence.filter (recordMapsTo f zid)).getLast? with
    | none => rw [hl] at hsome; simp at hsome
    | some q => simp [hl]

end ViewPersonal
